import Mathlib

/-!
Verification development for the moderation pipeline of `src/bot.js`
(ai-persona-bot).  The JavaScript functions are shallowly embedded as
executable Lean definitions: strings are modelled as `List Char`
(message content in this development is ASCII, where JS `toLowerCase`
agrees with `Char.toLower`), timestamps as `Nat` milliseconds, the
in-process `Map`s as functions `Nat → Option _`, and the two OpenAI
calls as explicit response parameters so that every failure mode of the
service can be examined.
-/

namespace Bot

/-! ### JS character classes and basic string helpers -/

/-- The character class matched by JS `\s` (and stripped by `String.prototype.trim`). -/
def isJsSpace (c : Char) : Bool :=
  c.toNat = 0x20 || c.toNat = 0x09 || c.toNat = 0x0A || c.toNat = 0x0B ||
  c.toNat = 0x0C || c.toNat = 0x0D || c.toNat = 0xA0 || c.toNat = 0x1680 ||
  (0x2000 ≤ c.toNat && c.toNat ≤ 0x200A) || c.toNat = 0x2028 || c.toNat = 0x2029 ||
  c.toNat = 0x202F || c.toNat = 0x205F || c.toNat = 0x3000 || c.toNat = 0xFEFF

/-- The zero-width characters removed by `normalizeForRepeat`
(`/[​-‍﻿]/g` in bot.js line 171). -/
def isZeroWidth (c : Char) : Bool :=
  (0x200B ≤ c.toNat && c.toNat ≤ 0x200D) || c.toNat = 0xFEFF

/-- JS `String.prototype.trim`: drop leading and trailing whitespace. -/
def jsTrim (l : List Char) : List Char :=
  ((l.dropWhile isJsSpace).reverse.dropWhile isJsSpace).reverse

/-- Worker for `collapseWs`: `inRun` records whether the previous character
was part of a whitespace run already replaced by its single `' '`. -/
def collapseWsGo (inRun : Bool) : List Char → List Char
  | [] => []
  | c :: rest =>
    if isJsSpace c then
      if inRun then collapseWsGo true rest
      else ' ' :: collapseWsGo true rest
    else c :: collapseWsGo false rest

/-- JS `.replace(/\s+/g, ' ')`: collapse every whitespace run to a single space. -/
def collapseWs (l : List Char) : List Char :=
  collapseWsGo false l

/-- bot.js `normalizeForRepeat` (lines 168-174): lowercase, strip zero-width
characters, collapse whitespace runs to one space, trim.  JS `toLowerCase` is
modelled by `Char.toLower`; they agree on the ASCII content evaluated here. -/
def normalizeForRepeat (l : List Char) : List Char :=
  jsTrim (collapseWs ((l.map Char.toLower).filter (fun c => !isZeroWidth c)))

/-- Worker for `splitSentences`.  `sep = true` means we are inside the
whitespace run that follows a sentence-final `.`/`!`/`?` (the separator of the
JS regex); `cur` is the reversed current segment. -/
def sentGo (sep : Bool) (cur : List Char) : List Char → List (List Char)
  | [] => [cur.reverse]
  | c :: rest =>
    if sep then
      if isJsSpace c then sentGo true cur rest
      else sentGo false [c] rest
    else
      match rest with
      | [] => [(c :: cur).reverse]
      | d :: _ =>
        if (c = '.' || c = '!' || c = '?') && isJsSpace d then
          (c :: cur).reverse :: sentGo true [] rest
        else sentGo false (c :: cur) rest

/-- Sentence splitting of bot.js line 191 (`split(/(?<=[.!?])\s+/)`): cut after
a `.`/`!`/`?` that is followed by whitespace, consuming the whitespace run.
The punctuation stays with the preceding sentence, as with the JS lookbehind;
empty segments (also produced by JS at a trailing separator) are dropped by the
caller's `filter(Boolean)`. -/
def splitSentences (l : List Char) : List (List Char) :=
  sentGo false [] l

/-- The sliding-window scan of bot.js lines 202-210: 60-character windows
taken at `i = 0, 20, 40, ...` while `i + 60 ≤ t.length`, i.e. at `i = 20*k`
for every `k` with `20*k + 60 ≤ t.length` (all such `k` are below
`t.length / 20 + 1`). -/
def slideWindows (t : List Char) : List (List Char) :=
  (List.range (t.length / 20 + 1)).filterMap (fun k =>
    if 20 * k + 60 ≤ t.length then Option.some ((t.drop (20 * k)).take 60)
    else Option.none)

/-- Whether some key occurs at least three times in the list: the JS code
builds a `Map` of occurrence counts and tests `some(c => c >= 3)`. -/
def hasTriple (keys : List (List Char)) : Bool :=
  keys.any (fun k => 3 ≤ keys.count k)

/-- bot.js `hasCopypastaInSingleMessage` (lines 176-213).  `split(/\n+/)` is
modelled by `splitOn '\n'`; the two agree after the subsequent
trim-and-drop-empties step.  The per-key `length < 20` `continue` is modelled
by filtering the keys to those of length ≥ 20 before counting (duplicates of a
≥20-char key are ≥20 chars themselves, so the counts agree). -/
def hasCopypastaInSingleMessage (text : List Char) : Bool :=
  if text.isEmpty then false
  else if (jsTrim (collapseWs text)).length < 30 then false
  else
    let rawLines := ((text.splitOn '\n').map jsTrim).filter (fun l => !l.isEmpty)
    let lineHit :=
      if 3 ≤ rawLines.length then
        hasTriple ((rawLines.map normalizeForRepeat).filter (fun k => 20 ≤ k.length))
      else false
    if lineHit then true
    else
      let sentences := (splitSentences (normalizeForRepeat text)).filter (fun s => !s.isEmpty)
      let sentHit :=
        if 3 ≤ sentences.length then
          hasTriple (sentences.filter (fun s => 20 ≤ s.length))
        else false
      if sentHit then true
      else
        let t := normalizeForRepeat text
        if 120 ≤ t.length then hasTriple (slideWindows t)
        else false

/-- The emoji character class of bot.js `countEmojis` (line 216). -/
def isEmojiChar (c : Char) : Bool :=
  (0x1F1E6 ≤ c.toNat && c.toNat ≤ 0x1FAFF) ||
  (0x1F300 ≤ c.toNat && c.toNat ≤ 0x1F6FF) ||
  (0x1F900 ≤ c.toNat && c.toNat ≤ 0x1F9FF) ||
  (0x2600 ≤ c.toNat && c.toNat ≤ 0x27BF) ||
  c.toNat = 0xFE0F

/-- bot.js `countEmojis` (lines 215-219). -/
def countEmojis (text : List Char) : Nat :=
  (text.filter isEmojiChar).length

/-- Does `sub` occur at the start of `l`? -/
def startsWithSeg : List Char → List Char → Bool
  | [], _ => true
  | _ :: _, [] => false
  | a :: as, b :: bs => a == b && startsWithSeg as bs

/-- Does `sub` occur as a contiguous run anywhere in `l`? -/
def hasSub (sub : List Char) : List Char → Bool
  | [] => startsWithSeg sub []
  | c :: rest => startsWithSeg sub (c :: rest) || hasSub sub rest

/-- The literal bot-insult check of bot.js line 606:
`/stupid bot|fuck you/i.test(msg.content)` (case-insensitive over ASCII). -/
def insultCheck (text : List Char) : Bool :=
  let t := text.map Char.toLower
  hasSub "stupid bot".data t || hasSub "fuck you".data t

/-! ### Strike ledger -/

/-- One entry of the `strikes` map (bot.js line 46): `{ count, lastStrike }`. -/
structure StrikeEntry where
  count : Nat
  lastStrike : Nat
deriving DecidableEq

/-- The in-process `strikes` map, keyed by user id. -/
def StrikesMap : Type := Nat → Option StrikeEntry

/-- `STRIKE_LIMITS` (bot.js line 47). -/
structure StrikeLimits where
  warn : Nat
  timeout : Nat
  kick : Nat
  ban : Nat

def STRIKE_LIMITS : StrikeLimits := ⟨1, 2, 3, 4⟩

/-- `STRIKE_DECAY_MS` (bot.js line 48): seven days in milliseconds. -/
def STRIKE_DECAY_MS : Nat := 1000 * 60 * 60 * 24 * 7

/-- `TONE_COOLDOWN_MS` (bot.js line 54). -/
def TONE_COOLDOWN_MS : Nat := 5000

/-- bot.js `decayStrikes` (lines 84-93): returns the surviving count and the
map after the lazy delete-on-expiry side effect. -/
def decayStrikes (m : StrikesMap) (now uid : Nat) : Nat × StrikesMap :=
  match m uid with
  | Option.none => (0, m)
  | Option.some e =>
    if now - e.lastStrike > STRIKE_DECAY_MS then
      (0, fun v => if v = uid then Option.none else m v)
    else (e.count, m)

/-- The moderation actions recorded in `action_taken` of the incident log. -/
inductive Action where
  | nothing
  | warn
  | timeout (ms : Nat)
  | kick
  | ban
  | delete
deriving DecidableEq

/-- The if/else-if ladder inside bot.js `escalate` (lines 142-162), as a
function of the post-increment strike count.  The timeout duration is the
`10 * 60 * 1000` passed to `member.timeout` on line 149. -/
def escalateAction (count : Nat) : Action :=
  if count = STRIKE_LIMITS.warn then Action.warn
  else if count = STRIKE_LIMITS.timeout then Action.timeout (10 * 60 * 1000)
  else if count = STRIKE_LIMITS.kick then Action.kick
  else if count ≥ STRIKE_LIMITS.ban then Action.ban
  else Action.nothing

/-- One row written by `recordLog` (bot.js lines 115-134) into the
`moderation_log` incident store. -/
structure LogEntry where
  harassment : Bool
  hate : Bool
  violence : Bool
  passive_aggr : Bool
  condescending : Bool
  provocation : Bool
  toxicity : String
  action : Action
deriving DecidableEq

/-- `recordLog(msg, { action })`: every flag at its default, only the action set. -/
def plainLog (a : Action) : LogEntry :=
  ⟨false, false, false, false, false, false, "none", a⟩

/-- Result of bot.js `escalate` (lines 136-166): the ladder action, the log
entry its `recordLog` call appends, and the updated strikes map. -/
structure EscalateOut where
  action : Action
  log : LogEntry
  strikes : StrikesMap

/-- bot.js `escalate`: decay, increment, store `{count, lastStrike: now}`,
pick the ladder action, append one log entry carrying that action. -/
def escalate (m : StrikesMap) (now uid : Nat) : EscalateOut :=
  let prev := (decayStrikes m now uid).1
  let m1 := (decayStrikes m now uid).2
  let count := prev + 1
  let a := escalateAction count
  { action := a
    log := plainLog a
    strikes := fun v => if v = uid then Option.some ⟨count, now⟩ else m1 v }

/-! ### Classifier collaborators

The two OpenAI calls are modelled by explicit response parameters: every way
the service can behave at the call site (throw, return unparseable content,
or return a parsed value) is one constructor. -/

/-- Parsed tone result of `classifyBehavior` (bot.js lines 240-267). -/
structure Tone where
  passive_aggressive : Bool
  condescending : Bool
  provocation : Bool
  toxicity : String
deriving DecidableEq

/-- The all-false / toxicity "none" default returned on blank input or on a
parse failure (bot.js lines 242 and 265). -/
def defaultTone : Tone := ⟨false, false, false, "none"⟩

/-- Behaviour of the tone-classifier service call for one message. -/
inductive ToneResponse where
  | err
  | malformed
  | ok (t : Tone)

/-- bot.js `classifyBehavior` (lines 240-267).  The `try` block wraps only
`JSON.parse` of the response content; an exception thrown by the
`chat.completions.create` call itself propagates to the caller, which is the
`Except.error` case here. -/
def classifyBehavior (text : List Char) (svc : ToneResponse) : Except Unit Tone :=
  if (jsTrim text).isEmpty then Except.ok defaultTone
  else
    match svc with
    | ToneResponse.err => Except.error ()
    | ToneResponse.malformed => Except.ok defaultTone
    | ToneResponse.ok t => Except.ok t

/-- Category flags of the `omni-moderation-latest` result (bot.js line 555). -/
structure ModCategories where
  harassment : Bool
  hate : Bool
  violence : Bool
deriving DecidableEq

/-- `modRes.results[0]` of the moderation call. -/
structure ModFlagged where
  flagged : Bool
  categories : ModCategories
deriving DecidableEq

/-- Behaviour of the `openai.moderations.create` call (bot.js lines 551-554),
which has no surrounding try/catch at all: a thrown error aborts the handler. -/
inductive ModResponse where
  | err
  | ok (r : ModFlagged)

/-! ### Auxiliary per-user moderation history (`userModerationState`) -/

/-- One record of the `userModerationState` map (bot.js line 57). -/
structure UserModHistory where
  warningCount : Nat
  lastIncident : Nat
  timeoutUntil : Nat
  pattern : String
deriving DecidableEq

/-- The `userModerationState` map, keyed by user id. -/
def UMap : Type := Nat → Option UserModHistory

/-- The default record created by `getUserModerationHistory` (bot.js 311-316). -/
def defaultHistory : UserModHistory := ⟨0, 0, 0, "first incident"⟩

/-- bot.js `getUserModerationHistory` (lines 310-323).  `Map.get` returns the
stored object by reference, so the in-place decay write is visible in the map
when a record exists; for a fresh user the default object is not stored.
`(now - lastIncident) / 86400000 > 7` is real-number division in JS, i.e.
`now - lastIncident > 7 * 86400000`. -/
def getUserModerationHistory (m : UMap) (uid now : Nat) : UserModHistory × UMap :=
  let existing := (m uid).getD defaultHistory
  let decayed :=
    if now - existing.lastIncident > 7 * 86400000 then
      { existing with warningCount := 0, pattern := "clean slate" }
    else existing
  match m uid with
  | Option.none => (decayed, m)
  | Option.some _ => (decayed, fun v => if v = uid then Option.some decayed else m v)

/-- bot.js `updateModerationHistory` (lines 325-341). -/
def updateModerationHistory (m : UMap) (uid : Nat) (tone : Tone) (now : Nat) :
    UserModHistory × UMap :=
  let g := getUserModerationHistory m uid now
  let wc := g.1.warningCount + 1
  let pat :=
    if wc = 1 then "first incident"
    else if wc ≤ 3 then "repeat behavior"
    else "chronic issue"
  let tU :=
    if tone.toxicity = "high" || wc ≥ 4 then now + (min (wc * 10) 60) * 60 * 1000
    else g.1.timeoutUntil
  let h : UserModHistory := ⟨wc, now, tU, pat⟩
  (h, fun v => if v = uid then Option.some h else g.2 v)

/-- bot.js `isUserInTimeout` (lines 343-346), threading the write-back that its
internal `getUserModerationHistory` call can perform. -/
def isUserInTimeout (m : UMap) (uid now : Nat) : Bool × UMap :=
  let g := getUserModerationHistory m uid now
  (decide (now < g.1.timeoutUntil), g.2)

/-- The per-user tone-callout cooldown of bot.js line 581:
3 seconds once `warningCount > 2`, otherwise `TONE_COOLDOWN_MS`. -/
def toneCooldown (warningCount : Nat) : Nat :=
  if warningCount > 2 then 3000 else TONE_COOLDOWN_MS

/-! ### The moderation orchestrator (`handleModeration`) -/

/-- One entry of the per-channel `messageHistory` ring buffer (bot.js 508-511). -/
structure HEntry where
  text : List Char
  time : Nat
  user : Nat
deriving DecidableEq

/-- The incoming message, reduced to the fields `handleModeration` consumes. -/
structure Msg where
  author : Nat
  content : List Char

/-- A message returned by `channel.messages.fetch` in
`deleteRecentDuplicates` (bot.js line 223). -/
structure FMsg where
  authorId : Option Nat
  content : List Char
  createdTimestamp : Nat
  id : Nat
deriving DecidableEq

/-- The filter of bot.js `deleteRecentDuplicates` (lines 225-229): among the
fetched recent channel messages, exactly those from the same author whose
normalized content equals the target and whose age is within `maxAgeMs` are
deleted. -/
def duplicateTargets (authorId : Nat) (normalizedTarget : List Char)
    (now maxAgeMs : Nat) (fetched : List FMsg) : List FMsg :=
  fetched.filter (fun m =>
    m.authorId == Option.some authorId &&
    normalizeForRepeat m.content == normalizedTarget &&
    decide (now - m.createdTimestamp ≤ maxAgeMs))

/-- The mutable in-process state `handleModeration` touches, restricted to the
single channel and guild under consideration. -/
structure ModState where
  strikes : StrikesMap
  lastToneReply : Nat → Nat
  userMod : UMap
  messageHistory : List HEntry

/-- Observable outcome of one `handleModeration` run.  `logs` collects the
`recordLog` rows in order; `escalations` the reasons passed to `escalate`;
`spamShort` marks the early-return spam branches and `completed` the runs that
reach the final `recordLog` — both are observation fields that do not feed
back into any computation. -/
structure ModResult where
  logs : List LogEntry
  escalations : List String
  callout : Bool
  deletedSelf : Bool
  deletedIds : List Nat
  auxTimeout : Bool
  threw : Bool
  spamShort : Bool
  completed : Bool
  state : ModState

/-- bot.js lines 508-511: push the new entry, shift once if the buffer
exceeds 10. -/
def pushHistory (hist : List HEntry) (e : HEntry) : List HEntry :=
  let h := hist ++ [e]
  if h.length > 10 then h.drop 1 else h

/-- The channel ring buffer after the push for this message. -/
def bufferAfter (st : ModState) (msg : Msg) (now : Nat) : List HEntry :=
  pushHistory st.messageHistory ⟨msg.content, now, msg.author⟩

/-- `history.filter(h => h.user === msg.author.id)` (bot.js line 514). -/
def userMsgsOf (st : ModState) (msg : Msg) (now : Nat) : List HEntry :=
  (bufferAfter st msg now).filter (fun h => h.user == msg.author)

/-- The rate-flood guard of bot.js line 515: at least 5 buffered messages from
this user and less than 5 seconds since the oldest of them. -/
def rateFloodFire (userMsgs : List HEntry) (now : Nat) : Bool :=
  decide (5 ≤ userMsgs.length) && decide (now - (userMsgs.headD ⟨[], 0, 0⟩).time < 5000)

/-- The duplicate-flood guard of bot.js lines 531-534: at least 3 buffered
messages from this user, all of them normalizing to the same string of length
at least 20. -/
def dupFloodFire (normalizedBatch : List (List Char)) : Bool :=
  decide (3 ≤ normalizedBatch.length) &&
  normalizedBatch.all (fun x => x == normalizedBatch.headD []) &&
  decide (20 ≤ (normalizedBatch.headD []).length)

/-- The `tone.toxicity === 'high' || (tone.toxicity === 'medium' && ...)` test
of bot.js line 602. -/
def hostileFire (tone : Tone) : Bool :=
  tone.toxicity == "high" || (tone.toxicity == "medium" && (tone.condescending || tone.provocation))

/-- `hasToneIssues` (bot.js lines 573-574). -/
def hasToneIssues (tone : Tone) : Bool :=
  tone.passive_aggressive || tone.condescending || tone.provocation || tone.toxicity != "none"

/-- The common shape of the three early-return spam branches (rate flood,
single-message copypasta, emoji flood, bot.js lines 515-528 and 543-548):
`escalate`, delete the triggering message, `recordLog({action:'delete'})`. -/
def spamFinish (st : ModState) (msg : Msg) (now : Nat) (reason : String) : ModResult :=
  let e := escalate st.strikes now msg.author
  { logs := [e.log, plainLog Action.delete]
    escalations := [reason]
    callout := false
    deletedSelf := true
    deletedIds := []
    auxTimeout := false
    threw := false
    spamShort := true
    completed := false
    state := { st with strikes := e.strikes } }

/-- The duplicate-flood branch (bot.js lines 535-539): `escalate`, then
`deleteRecentDuplicates(msg, first, 50, 10*60*1000)`, whose own `recordLog`
appends the delete entry.  `fetched` stands for the up-to-50 most recent
channel messages returned by the fetch. -/
def dupFinish (st : ModState) (msg : Msg) (now : Nat) (fetched : List FMsg)
    (target : List Char) : ModResult :=
  let e := escalate st.strikes now msg.author
  let targets := duplicateTargets msg.author target now (10 * 60 * 1000) fetched
  { logs := [e.log, plainLog Action.delete]
    escalations := ["Spam (duplicate copypasta)"]
    callout := false
    deletedSelf := false
    deletedIds := targets.map (fun m => m.id)
    auxTimeout := false
    threw := false
    spamShort := true
    completed := false
    state := { st with strikes := e.strikes } }

/-- The tone/callout/final-log tail of `handleModeration`
(bot.js lines 573-621), entered with the explicit-category logs and reasons
already accumulated. -/
def toneStage (st : ModState) (msg : Msg) (now : Nat) (flagged : ModFlagged)
    (tone : Tone) (eLogs : List LogEntry) (eEsc : List String) : ModResult :=
  let g := getUserModerationHistory st.userMod msg.author now
  let cooldownMs := toneCooldown g.1.warningCount
  let calloutFire := hasToneIssues tone && decide (now - st.lastToneReply msg.author ≥ cooldownMs)
  let u := updateModerationHistory g.2 msg.author tone now
  let umAfter :=
    if calloutFire then u.2
    else if hasToneIssues tone then g.2
    else st.userMod
  let ltrAfter :=
    if calloutFire then (fun v => if v = msg.author then now else st.lastToneReply v)
    else st.lastToneReply
  let auxTO := calloutFire && decide (u.1.timeoutUntil > now)
  let hFire := hostileFire tone
  let eh := escalate st.strikes now msg.author
  let hLogs := if hFire then [eh.log] else []
  let hEsc := if hFire then ["Hostile tone (" ++ tone.toxicity ++ ")"] else []
  let strikes1 := if hFire then eh.strikes else st.strikes
  let iFire := insultCheck msg.content
  let ei := escalate strikes1 now msg.author
  let iLogs := if iFire then [ei.log] else []
  let iEsc := if iFire then ["Insulting the bot"] else []
  let strikes2 := if iFire then ei.strikes else strikes1
  let finalLog : LogEntry :=
    ⟨flagged.categories.harassment, flagged.categories.hate, flagged.categories.violence,
     tone.passive_aggressive, tone.condescending, tone.provocation,
     (if tone.toxicity = "" then "none" else tone.toxicity), Action.nothing⟩
  { logs := eLogs ++ hLogs ++ iLogs ++ [finalLog]
    escalations := eEsc ++ hEsc ++ iEsc
    callout := calloutFire
    deletedSelf := false
    deletedIds := []
    auxTimeout := auxTO
    threw := false
    spamShort := false
    completed := true
    state := { st with strikes := strikes2, lastToneReply := ltrAfter, userMod := umAfter } }

/-- Whether the explicit-category block (bot.js lines 556-562) records a
strike: the result is flagged and one of the three categories is set. -/
def catFire (flagged : ModFlagged) : Bool :=
  flagged.flagged &&
    (flagged.categories.harassment || flagged.categories.hate || flagged.categories.violence)

/-- The reason passed to `escalate` by the explicit-category block:
harassment takes precedence over hate/violence (bot.js lines 557-561). -/
def catReason (flagged : ModFlagged) : List String :=
  if flagged.flagged then
    if flagged.categories.harassment then ["Harassment"]
    else if flagged.categories.hate || flagged.categories.violence then ["Severe hate/violence"]
    else []
  else []

/-- The post-spam tail of `handleModeration` (bot.js lines 550-621): the
moderation-categories call (no try/catch — an error aborts the handler), the
explicit-category strikes, the tone classification, the active-timeout
auto-delete, and the tone stage. -/
def restStage (st : ModState) (msg : Msg) (now : Nat) (modSvc : ModResponse)
    (toneSvc : ToneResponse) : ModResult :=
  match modSvc with
  | ModResponse.err =>
    ⟨[], [], false, false, [], false, true, false, false, st⟩
  | ModResponse.ok flagged =>
    let ee := escalate st.strikes now msg.author
    let eLogs := if catFire flagged then [ee.log] else []
    let eEsc := catReason flagged
    let strikes1 := if catFire flagged then ee.strikes else st.strikes
    let st2 := { st with strikes := strikes1 }
    match classifyBehavior msg.content toneSvc with
    | Except.error _ =>
      ⟨eLogs, eEsc, false, false, [], false, true, false, false, st2⟩
    | Except.ok tone =>
      let t := isUserInTimeout st2.userMod msg.author now
      let st3 := { st2 with userMod := t.2 }
      if t.1 then
        ⟨eLogs, eEsc, false, true, [], false, false, false, false, st3⟩
      else
        toneStage st3 msg now flagged tone eLogs eEsc

/-- bot.js `handleModeration` (lines 487-636).  `disabled` and `shadow` stand
for `DISABLED_GUILDS.has(msg.guildId)` and `shadowBanned.has(msg.author.id)`;
`fetched` for the channel messages `deleteRecentDuplicates` would fetch;
`modSvc` and `toneSvc` for the behaviour of the two classifier calls.  The
`saveConversationMessage` analytics write, `logEvidence` mod-channel embeds,
profiling, and attachment handling touch other stores and are not part of the
incident log modelled here. -/
def handleModeration (st : ModState) (msg : Msg) (now : Nat) (fetched : List FMsg)
    (modSvc : ModResponse) (toneSvc : ToneResponse) (disabled shadow : Bool) : ModResult :=
  if disabled then
    ⟨[], [], false, false, [], false, false, false, false, st⟩
  else if shadow then
    ⟨[], [], false, true, [], false, false, false, false, st⟩
  else
    let hist := bufferAfter st msg now
    let st1 := { st with messageHistory := hist }
    let userMsgs := userMsgsOf st msg now
    if rateFloodFire userMsgs now then
      spamFinish st1 msg now "Spam (too many messages)"
    else if hasCopypastaInSingleMessage msg.content then
      spamFinish st1 msg now "Spam (copypasta in single message)"
    else
      let normalizedBatch := userMsgs.map (fun h => normalizeForRepeat h.text)
      if dupFloodFire normalizedBatch then
        dupFinish st1 msg now fetched (normalizedBatch.headD [])
      else if decide (12 ≤ countEmojis msg.content) then
        spamFinish st1 msg now "Spam (emoji flood)"
      else
        restStage st1 msg now modSvc toneSvc

/-! ### The profiling EWMA (`ewma`, `clamp01`, the merged scores) -/

/-- bot.js `ewma` (lines 354-358).  `prev` and `next` are nullable JS numbers;
when `prev` is non-null, a null `next` coerces to 0 inside the arithmetic. -/
def ewma (prev next : Option ℚ) (alpha : ℚ) : Option ℚ :=
  match prev with
  | Option.none => next
  | Option.some p => Option.some ((1 - alpha) * p + alpha * (next.getD 0))

/-- bot.js `clamp01` (line 358): `Math.max(0, Math.min(1, x))`, where a null
argument coerces to 0. -/
def clamp01 (x : Option ℚ) : ℚ :=
  max 0 (min 1 (x.getD 0))

/-- The per-score merge used for every big-five, communication-style, and
risk-flag axis in `robustAnalyzeUserProfile` (bot.js lines 409-433):
`clamp01(ewma(existing, observed ?? null))` with the default `alpha = 0.3`. -/
def scoreUpdate (old observed : Option ℚ) : ℚ :=
  clamp01 (ewma old observed (3/10))

/-- The five-factor score record (`big5` in bot.js lines 409-415). -/
structure Big5 (α : Type) where
  O : α
  C : α
  E : α
  A : α
  N : α

/-- `mergedBig5` (bot.js lines 409-415): every axis through `scoreUpdate`. -/
def mergedBig5 (ex an : Big5 (Option ℚ)) : Big5 ℚ :=
  ⟨scoreUpdate ex.O an.O, scoreUpdate ex.C an.C, scoreUpdate ex.E an.E,
   scoreUpdate ex.A an.A, scoreUpdate ex.N an.N⟩

/-- The communication-style score record (bot.js lines 417-426). -/
structure CommStyle (α : Type) where
  directness : α
  formality : α
  sarcasm : α
  humor : α
  assertiveness : α
  empathy : α
  profanity : α
  emoji_use : α

/-- `mergedComm` (bot.js lines 417-426). -/
def mergedComm (ex an : CommStyle (Option ℚ)) : CommStyle ℚ :=
  ⟨scoreUpdate ex.directness an.directness, scoreUpdate ex.formality an.formality,
   scoreUpdate ex.sarcasm an.sarcasm, scoreUpdate ex.humor an.humor,
   scoreUpdate ex.assertiveness an.assertiveness, scoreUpdate ex.empathy an.empathy,
   scoreUpdate ex.profanity an.profanity, scoreUpdate ex.emoji_use an.emoji_use⟩

/-- The risk-flag score record (bot.js lines 428-433). -/
structure RiskFlags (α : Type) where
  trollish : α
  brigading : α
  spammy : α
  conflict_prone : α

/-- `mergedRisk` (bot.js lines 428-433). -/
def mergedRisk (ex an : RiskFlags (Option ℚ)) : RiskFlags ℚ :=
  ⟨scoreUpdate ex.trollish an.trollish, scoreUpdate ex.brigading an.brigading,
   scoreUpdate ex.spammy an.spammy, scoreUpdate ex.conflict_prone an.conflict_prone⟩

/-- All components of a merged five-factor record lie in the unit interval. -/
def big5InRange (b : Big5 ℚ) : Prop :=
  (0 ≤ b.O ∧ b.O ≤ 1) ∧ (0 ≤ b.C ∧ b.C ≤ 1) ∧ (0 ≤ b.E ∧ b.E ≤ 1) ∧
  (0 ≤ b.A ∧ b.A ≤ 1) ∧ (0 ≤ b.N ∧ b.N ≤ 1)

/-- All components of a merged communication-style record lie in `[0,1]`. -/
def commInRange (b : CommStyle ℚ) : Prop :=
  (0 ≤ b.directness ∧ b.directness ≤ 1) ∧ (0 ≤ b.formality ∧ b.formality ≤ 1) ∧
  (0 ≤ b.sarcasm ∧ b.sarcasm ≤ 1) ∧ (0 ≤ b.humor ∧ b.humor ≤ 1) ∧
  (0 ≤ b.assertiveness ∧ b.assertiveness ≤ 1) ∧ (0 ≤ b.empathy ∧ b.empathy ≤ 1) ∧
  (0 ≤ b.profanity ∧ b.profanity ≤ 1) ∧ (0 ≤ b.emoji_use ∧ b.emoji_use ≤ 1)

/-- All components of a merged risk-flag record lie in `[0,1]`. -/
def riskInRange (b : RiskFlags ℚ) : Prop :=
  (0 ≤ b.trollish ∧ b.trollish ≤ 1) ∧ (0 ≤ b.brigading ∧ b.brigading ≤ 1) ∧
  (0 ≤ b.spammy ∧ b.spammy ≤ 1) ∧ (0 ≤ b.conflict_prone ∧ b.conflict_prone ≤ 1)

/-! ### Concrete fixtures used by counterexamples and witnesses -/

/-- A process state with no strikes, no cooldowns, no history, empty buffer. -/
def freshState : ModState :=
  ⟨fun _ => Option.none, fun _ => 0, fun _ => Option.none, []⟩

/-- A clean (unflagged) moderation-categories result. -/
def cleanMod : ModResponse :=
  ModResponse.ok ⟨false, ⟨false, false, false⟩⟩

/-- A strikes map holding one stale entry (count 5, recorded at time 0) for user 3. -/
def staleStrikes : StrikesMap :=
  fun u => if u = 3 then Option.some ⟨5, 0⟩ else Option.none

/-! ### Theorems -/

/-- C2: The escalation policy is a deterministic total function of the
post-increment strike count: count 1 yields warn, count 2 a 10-minute timeout,
count 3 kick, every count ≥ 4 ban; the actions for counts 1, 2, 3 are pairwise
distinct; and `escalate` applies exactly this ladder to the post-increment
count. -/
theorem strike_ladder (n : Nat) (h : 4 ≤ n) (m : StrikesMap) (now uid : Nat) :
    escalateAction 1 = Action.warn ∧
    escalateAction 2 = Action.timeout (10 * 60 * 1000) ∧
    escalateAction 3 = Action.kick ∧
    escalateAction n = Action.ban ∧
    (Action.warn ≠ Action.timeout (10 * 60 * 1000) ∧ Action.warn ≠ Action.kick ∧
      Action.timeout (10 * 60 * 1000) ≠ Action.kick) ∧
    (escalate m now uid).action = escalateAction ((decayStrikes m now uid).1 + 1) := by
  refine ⟨by decide, by decide, by decide, ?_, by decide, rfl⟩
  have h1 : n ≠ 1 := by omega
  have h2 : n ≠ 2 := by omega
  have h3 : n ≠ 3 := by omega
  simp [escalateAction, STRIKE_LIMITS, h1, h2, h3, h]

/-- Witness for C2 at `n = 4`. -/
theorem strike_ladder_witness :
    (4 : Nat) ≤ 4 ∧ escalateAction 4 = Action.ban :=
  ⟨by decide, (strike_ladder 4 (by decide) (fun _ => Option.none) 0 0).2.2.2.1⟩

/-- C3: if the time elapsed since the user's last strike exceeds 7 days,
`decayStrikes` returns 0 regardless of the stored count, and as a lazy side
effect of the access the stored record is removed, so every subsequent read
also returns 0. -/
theorem strike_decay (m : StrikesMap) (uid now : Nat) (e : StrikeEntry)
    (hm : m uid = Option.some e) (h : now - e.lastStrike > STRIKE_DECAY_MS) :
    (decayStrikes m now uid).1 = 0 ∧
    (decayStrikes m now uid).2 uid = Option.none ∧
    (decayStrikes (decayStrikes m now uid).2 now uid).1 = 0 := by
  simp [decayStrikes, hm, h]

/-- Witness for C3: a count-5 entry recorded at time 0, read just past the
7-day window. -/
theorem strike_decay_witness :
    (decayStrikes staleStrikes (STRIKE_DECAY_MS + 1) 3).1 = 0 ∧
    (decayStrikes staleStrikes (STRIKE_DECAY_MS + 1) 3).2 3 = Option.none := by
  have := strike_decay staleStrikes 3 (STRIKE_DECAY_MS + 1) ⟨5, 0⟩ (by decide) (by decide)
  exact ⟨this.1, this.2.1⟩

/-- A message consisting of the same ≥20-character line twice. -/
def twoRepeatLines : String :=
  "this line repeats itself fully\nthis line repeats itself fully"

/-- A message consisting of the same ≥20-character line three times. -/
def threeRepeatLines : String :=
  "this line repeats itself fully\nthis line repeats itself fully\nthis line repeats itself fully"

/-- C8: single-message copypasta detection has an exact boundary at 3
repetitions — a message with exactly 2 repeated normalized ≥20-character lines
does not trigger it, and a message with 3 such repeated lines does. -/
theorem copypasta_boundary :
    20 ≤ (normalizeForRepeat "this line repeats itself fully".data).length ∧
    hasCopypastaInSingleMessage twoRepeatLines.data = false ∧
    hasCopypastaInSingleMessage threeRepeatLines.data = true := by decide

/-- Every `scoreUpdate` result lies in the unit interval (the `clamp01` wrap
of bot.js lines 410-432). -/
theorem scoreUpdate_mem (p q : Option ℚ) :
    0 ≤ scoreUpdate p q ∧ scoreUpdate p q ≤ 1 := by
  constructor
  · exact le_max_left 0 _
  · exact max_le (by norm_num) (min_le_left 1 _)

/-- C9: every scalar trait score (big-five, communication-style, risk-flag
axes) is updated by `new = (1-α)·old + α·observed` with `α = 0.3`, a null old
value is direct assignment of the observed value, and every stored score lies
in `[0,1]` after every update. -/
theorem profile_score_update (old obs : ℚ)
    (h0 : 0 ≤ old) (h1 : old ≤ 1) (h2 : 0 ≤ obs) (h3 : obs ≤ 1) :
    scoreUpdate Option.none (Option.some obs) = obs ∧
    scoreUpdate (Option.some old) (Option.some obs) = (1 - 3/10) * old + (3/10) * obs ∧
    (∀ p q : Option ℚ, 0 ≤ scoreUpdate p q ∧ scoreUpdate p q ≤ 1) ∧
    (∀ ex an : Big5 (Option ℚ), big5InRange (mergedBig5 ex an)) ∧
    (∀ ex an : CommStyle (Option ℚ), commInRange (mergedComm ex an)) ∧
    (∀ ex an : RiskFlags (Option ℚ), riskInRange (mergedRisk ex an)) := by
  refine ⟨?_, ?_, scoreUpdate_mem, ?_, ?_, ?_⟩
  · show max 0 (min 1 obs) = obs
    rw [min_eq_right h3, max_eq_right h2]
  · show max 0 (min 1 ((1 - 3/10) * old + (3/10) * obs)) = (1 - 3/10) * old + (3/10) * obs
    have hv0 : (0:ℚ) ≤ (1 - 3/10) * old + (3/10) * obs := by nlinarith
    have hv1 : (1 - 3/10) * old + (3/10) * obs ≤ 1 := by nlinarith
    rw [min_eq_right hv1, max_eq_right hv0]
  · intro ex an
    exact ⟨scoreUpdate_mem _ _, scoreUpdate_mem _ _, scoreUpdate_mem _ _,
      scoreUpdate_mem _ _, scoreUpdate_mem _ _⟩
  · intro ex an
    exact ⟨scoreUpdate_mem _ _, scoreUpdate_mem _ _, scoreUpdate_mem _ _,
      scoreUpdate_mem _ _, scoreUpdate_mem _ _, scoreUpdate_mem _ _,
      scoreUpdate_mem _ _, scoreUpdate_mem _ _⟩
  · intro ex an
    exact ⟨scoreUpdate_mem _ _, scoreUpdate_mem _ _, scoreUpdate_mem _ _,
      scoreUpdate_mem _ _⟩

/-- Witness for C9 at `old = 1/2`, `obs = 3/4`. -/
theorem profile_score_update_witness :
    scoreUpdate Option.none (Option.some (3/4 : ℚ)) = 3/4 ∧
    scoreUpdate (Option.some (1/2 : ℚ)) (Option.some (3/4)) = (1 - 3/10) * (1/2) + (3/10) * (3/4) := by
  have := profile_score_update (1/2) (3/4) (by norm_num) (by norm_num) (by norm_num) (by norm_num)
  exact ⟨this.1, this.2.1⟩

/-- C10: the duplicate-cleanup pass deletes exactly the fetched messages that
are (1) authored by the same user, (2) normalize to the duplicate target, and
(3) at most 10 minutes old; every other fetched message is untouched. -/
theorem duplicate_cleanup_frame (authorId : Nat) (target : List Char)
    (now : Nat) (fetched : List FMsg) (m : FMsg) :
    m ∈ duplicateTargets authorId target now (10 * 60 * 1000) fetched ↔
      (m ∈ fetched ∧ m.authorId = Option.some authorId ∧
       normalizeForRepeat m.content = target ∧
       now - m.createdTimestamp ≤ 10 * 60 * 1000) := by
  simp [duplicateTargets, List.mem_filter, and_assoc]

/-! ### Shape of the incident log across the pipeline branches -/

/-- The corrected per-message log count: one entry per strike recorded, plus
the `delete` entry of a spam short-circuit, plus the final action-none entry
of a fully evaluated message. -/
def logCountOk (r : ModResult) : Prop :=
  r.logs.length = r.escalations.length
    + (if r.spamShort then 1 else 0) + (if r.completed then 1 else 0)

theorem catReason_length (flagged : ModFlagged) :
    (catReason flagged).length = if catFire flagged then 1 else 0 := by
  rcases flagged with ⟨f, h1, h2, h3⟩
  cases f <;> cases h1 <;> cases h2 <;> cases h3 <;> rfl

theorem toneStage_shape (st : ModState) (msg : Msg) (now : Nat) (flagged : ModFlagged)
    (tone : Tone) (eLogs : List LogEntry) (eEsc : List String)
    (hlen : eLogs.length = eEsc.length) :
    (toneStage st msg now flagged tone eLogs eEsc).logs.length
      = (toneStage st msg now flagged tone eLogs eEsc).escalations.length + 1 ∧
    (toneStage st msg now flagged tone eLogs eEsc).spamShort = false ∧
    (toneStage st msg now flagged tone eLogs eEsc).completed = true := by
  cases hf : hostileFire tone <;> cases hi : insultCheck msg.content <;>
    simp [toneStage, hf, hi, hlen]

theorem restStage_shape (st : ModState) (msg : Msg) (now : Nat)
    (modSvc : ModResponse) (toneSvc : ToneResponse) :
    logCountOk (restStage st msg now modSvc toneSvc) ∧
    (restStage st msg now modSvc toneSvc).spamShort = false := by
  cases modSvc with
  | err => simp [restStage, logCountOk]
  | ok flagged =>
    have hlen :
        (if catFire flagged then [(escalate st.strikes now msg.author).log] else []).length
          = (catReason flagged).length := by
      cases hc : catFire flagged <;> simp [catReason_length, hc]
    cases hcb : classifyBehavior msg.content toneSvc with
    | error e => simp [restStage, logCountOk, hcb, hlen]
    | ok tone =>
      cases ht : (isUserInTimeout st.userMod msg.author now).1 with
      | false =>
        have hts := toneStage_shape
          { st with
              strikes := if catFire flagged then (escalate st.strikes now msg.author).strikes
                         else st.strikes
              userMod := (isUserInTimeout st.userMod msg.author now).2 }
          msg now flagged tone
          (if catFire flagged then [(escalate st.strikes now msg.author).log] else [])
          (catReason flagged) (by simpa using hlen)
        simp only [restStage, hcb, ht, logCountOk]
        simp only [logCountOk] at hts
        simpa [hts.2.1, hts.2.2] using hts.1
      | true => simp [restStage, logCountOk, hcb, ht, hlen]

theorem spamFinish_shape (st : ModState) (msg : Msg) (now : Nat) (reason : String) :
    logCountOk (spamFinish st msg now reason) ∧
    (spamFinish st msg now reason).logs
      = [plainLog (escalate st.strikes now msg.author).action, plainLog Action.delete] ∧
    (spamFinish st msg now reason).spamShort = true := by
  refine ⟨by simp [spamFinish, logCountOk], rfl, rfl⟩

theorem dupFinish_shape (st : ModState) (msg : Msg) (now : Nat) (fetched : List FMsg)
    (target : List Char) :
    logCountOk (dupFinish st msg now fetched target) ∧
    (dupFinish st msg now fetched target).logs
      = [plainLog (escalate st.strikes now msg.author).action, plainLog Action.delete] ∧
    (dupFinish st msg now fetched target).spamShort = true := by
  refine ⟨by simp [dupFinish, logCountOk], rfl, rfl⟩

/-- The message used by the C1 counterexample: twelve emoji characters,
triggering the emoji-flood heuristic. -/
def emojiSpamMsg : Msg := ⟨7, List.replicate 12 '✨'⟩

/-- The C1 counterexample run: the emoji-flood spam branch on a fresh state. -/
def emojiRun : ModResult :=
  handleModeration freshState emojiSpamMsg 0 [] ModResponse.err ToneResponse.err false false

/-- C1 counterexample: a message short-circuited by the emoji-flood spam
heuristic appends TWO incident log entries — the warn entry written by
`escalate` and the `delete` entry written afterwards — not exactly one. -/
theorem single_log_per_message_cex :
    emojiRun.spamShort = true ∧
    emojiRun.escalations = ["Spam (emoji flood)"] ∧
    emojiRun.logs = [plainLog Action.warn, plainLog Action.delete] ∧
    emojiRun.logs.length ≠ 1 := by decide

/-- C1 (amended): per evaluated message, the incident log receives one entry
per strike recorded, plus one `delete` entry when a spam heuristic
short-circuits the message (so spam branches append exactly two entries: the
ladder action and the delete), plus the final action-none entry exactly when
the message is fully evaluated; branches that drop the message early (disabled
guild, shadowban, active auxiliary timeout, or a thrown classifier error)
append no further entry. -/
theorem log_count_shape (st : ModState) (msg : Msg) (now : Nat) (fetched : List FMsg)
    (modSvc : ModResponse) (toneSvc : ToneResponse) (disabled shadow : Bool) :
    logCountOk (handleModeration st msg now fetched modSvc toneSvc disabled shadow) ∧
    ((handleModeration st msg now fetched modSvc toneSvc disabled shadow).spamShort = true →
      ∃ a, (handleModeration st msg now fetched modSvc toneSvc disabled shadow).logs
            = [plainLog a, plainLog Action.delete]) := by
  cases disabled with
  | true => simp [handleModeration, logCountOk]
  | false =>
  cases shadow with
  | true => simp [handleModeration, logCountOk]
  | false =>
  cases h1 : rateFloodFire (userMsgsOf st msg now) now with
  | true =>
    have hs := spamFinish_shape { st with messageHistory := bufferAfter st msg now } msg now
      "Spam (too many messages)"
    refine ⟨by simpa [handleModeration, h1] using hs.1, fun _ => ?_⟩
    exact ⟨_, by simpa [handleModeration, h1] using hs.2.1⟩
  | false =>
  cases h2 : hasCopypastaInSingleMessage msg.content with
  | true =>
    have hs := spamFinish_shape { st with messageHistory := bufferAfter st msg now } msg now
      "Spam (copypasta in single message)"
    refine ⟨by simpa [handleModeration, h1, h2] using hs.1, fun _ => ?_⟩
    exact ⟨_, by simpa [handleModeration, h1, h2] using hs.2.1⟩
  | false =>
  cases h3 : dupFloodFire ((userMsgsOf st msg now).map (fun h => normalizeForRepeat h.text)) with
  | true =>
    have hs := dupFinish_shape { st with messageHistory := bufferAfter st msg now } msg now fetched
      (((userMsgsOf st msg now).map (fun h => normalizeForRepeat h.text)).headD [])
    refine ⟨by simpa [handleModeration, h1, h2, h3] using hs.1, fun _ => ?_⟩
    exact ⟨_, by simpa [handleModeration, h1, h2, h3] using hs.2.1⟩
  | false =>
  cases h4 : decide (12 ≤ countEmojis msg.content) with
  | true =>
    have hs := spamFinish_shape { st with messageHistory := bufferAfter st msg now } msg now
      "Spam (emoji flood)"
    refine ⟨by simpa [handleModeration, h1, h2, h3, h4] using hs.1, fun _ => ?_⟩
    exact ⟨_, by simpa [handleModeration, h1, h2, h3, h4] using hs.2.1⟩
  | false =>
    have hr := restStage_shape { st with messageHistory := bufferAfter st msg now } msg now
      modSvc toneSvc
    refine ⟨by simpa [handleModeration, h1, h2, h3, h4] using hr.1, fun hss => ?_⟩
    exact absurd (by simpa [handleModeration, h1, h2, h3, h4] using hss) (by simp [hr.2])

/-- Witness for C1's amended theorem: the spam-branch implication discharged
on the emoji-flood run. -/
theorem log_count_shape_witness :
    ∃ a, emojiRun.logs = [plainLog a, plainLog Action.delete] :=
  (log_count_shape freshState emojiSpamMsg 0 [] ModResponse.err ToneResponse.err false false).2
    (by decide)

/-! ### C4: classifier failure handling -/

/-- `isUserInTimeout` for a user with no stored history record: the default
record has `timeoutUntil = 0`, so the check is false and the map unchanged. -/
theorem isUserInTimeout_none (m : UMap) (uid now : Nat) (h : m uid = Option.none) :
    isUserInTimeout m uid now = (false, m) := by
  simp only [isUserInTimeout, getUserModerationHistory, h, Option.getD]
  split <;> simp [defaultHistory]

/-- An ordinary message with no spam trigger, used by the C4 runs. -/
def plainMsg : Msg := ⟨5, "hello there friend".data⟩

/-- The C4 counterexample run: the tone-classifier call throws (network
error / timeout) on a message with no spam-heuristic trigger. -/
def toneErrRun : ModResult :=
  handleModeration freshState plainMsg 500 [] cleanMod ToneResponse.err false false

/-- C4 counterexample: when the classifier call throws (network error or
timeout), the exception propagates out of the handler — the message is NOT
logged at all, contradicting "the message is still logged with
actionTaken=none". -/
theorem classifier_error_cex :
    toneErrRun.threw = true ∧ toneErrRun.logs = [] ∧ toneErrRun.escalations = [] := by decide

/-- C4 (amended): only a MALFORMED classifier response fails open — tone is
treated as all-false/toxicity none, no strike is recorded, and the message is
logged once with action none and all tone flags false.  A classifier call that
THROWS (network error, timeout), on either the moderation-categories call or
the tone call, propagates out of the handler: no strike is recorded but the
message is not logged at all. -/
theorem classifier_failure_modes (st : ModState) (msg : Msg) (now : Nat) (fetched : List FMsg)
    (hrate : rateFloodFire (userMsgsOf st msg now) now = false)
    (hcp : hasCopypastaInSingleMessage msg.content = false)
    (hdup : dupFloodFire ((userMsgsOf st msg now).map (fun h => normalizeForRepeat h.text)) = false)
    (hemo : decide (12 ≤ countEmojis msg.content) = false)
    (hins : insultCheck msg.content = false)
    (hum : st.userMod msg.author = Option.none)
    (hblank : (jsTrim msg.content).isEmpty = false) :
    ((handleModeration st msg now fetched cleanMod ToneResponse.malformed false false).logs
        = [⟨false, false, false, false, false, false, "none", Action.nothing⟩] ∧
     (handleModeration st msg now fetched cleanMod ToneResponse.malformed false false).escalations = [] ∧
     (handleModeration st msg now fetched cleanMod ToneResponse.malformed false false).callout = false ∧
     (handleModeration st msg now fetched cleanMod ToneResponse.malformed false false).threw = false ∧
     (handleModeration st msg now fetched cleanMod ToneResponse.malformed false false).state.strikes
        = st.strikes) ∧
    ((handleModeration st msg now fetched cleanMod ToneResponse.err false false).threw = true ∧
     (handleModeration st msg now fetched cleanMod ToneResponse.err false false).logs = []) ∧
    ((handleModeration st msg now fetched ModResponse.err ToneResponse.malformed false false).threw = true ∧
     (handleModeration st msg now fetched ModResponse.err ToneResponse.malformed false false).logs = []) := by
  have hbranch : ∀ (msvc : ModResponse) (tsvc : ToneResponse),
      handleModeration st msg now fetched msvc tsvc false false
        = restStage { st with messageHistory := bufferAfter st msg now } msg now msvc tsvc := by
    intro msvc tsvc
    simp [handleModeration, hrate, hcp, hdup, hemo]
  have hto : isUserInTimeout st.userMod msg.author now = (false, st.userMod) :=
    isUserInTimeout_none st.userMod msg.author now hum
  refine ⟨?_, ?_, ?_⟩
  · simp only [hbranch]
    simp [restStage, cleanMod, classifyBehavior, hblank, catFire, catReason, hto,
      toneStage, hasToneIssues, defaultTone, hostileFire, hins]
  · simp only [hbranch]
    simp [restStage, cleanMod, classifyBehavior, hblank, catFire, catReason]
  · simp only [hbranch]
    simp [restStage]

/-- Witness for C4's amended theorem on a concrete clean message. -/
theorem classifier_failure_modes_witness :
    (handleModeration freshState plainMsg 500 [] cleanMod ToneResponse.malformed false false).logs
      = [⟨false, false, false, false, false, false, "none", Action.nothing⟩] ∧
    (handleModeration freshState plainMsg 500 [] cleanMod ToneResponse.err false false).threw = true := by
  have h := classifier_failure_modes freshState plainMsg 500 [] (by decide) (by decide)
    (by decide) (by decide) (by decide) (by decide) (by decide)
  exact ⟨h.1.1, h.2.1.1⟩

/-! ### C5: what gates the tone path -/

/-- The C5 counterexample run: the moderation call flags harassment AND the
tone classifier returns toxicity "high" for the same message. -/
def bothPathsRun : ModResult :=
  handleModeration freshState ⟨9, "you suck".data⟩ 10000 []
    (ModResponse.ok ⟨true, ⟨true, false, false⟩⟩)
    (ToneResponse.ok ⟨false, false, false, "high"⟩) false false

/-- C5 counterexample: a message that records an explicit-category strike
(Harassment) still runs the tone path — it receives a public callout AND a
second, hostile-tone strike, contradicting "a message that triggered an
explicit-category strike never also triggers the tone path". -/
theorem tone_gate_cex :
    bothPathsRun.escalations = ["Harassment", "Hostile tone (high)"] ∧
    bothPathsRun.callout = true ∧
    bothPathsRun.state.strikes 9 = Option.some ⟨2, 10000⟩ := by decide

/-- C5 (amended): tone-driven behavior (callout and hostile-tone strike) is
skipped only by the spam heuristics (and the early drops): a spam-short-
circuited message never reaches the tone path.  An explicit-category strike
does not suppress it. -/
theorem spam_skips_tone (st : ModState) (msg : Msg) (now : Nat) (fetched : List FMsg)
    (modSvc : ModResponse) (toneSvc : ToneResponse) (disabled shadow : Bool)
    (h : (handleModeration st msg now fetched modSvc toneSvc disabled shadow).spamShort = true) :
    (handleModeration st msg now fetched modSvc toneSvc disabled shadow).callout = false ∧
    (handleModeration st msg now fetched modSvc toneSvc disabled shadow).completed = false ∧
    (handleModeration st msg now fetched modSvc toneSvc disabled shadow).escalations.length = 1 := by
  cases disabled with
  | true => simp [handleModeration] at h
  | false =>
  cases shadow with
  | true => simp [handleModeration] at h
  | false =>
  cases h1 : rateFloodFire (userMsgsOf st msg now) now with
  | true => simp [handleModeration, h1, spamFinish]
  | false =>
  cases h2 : hasCopypastaInSingleMessage msg.content with
  | true => simp [handleModeration, h1, h2, spamFinish]
  | false =>
  cases h3 : dupFloodFire ((userMsgsOf st msg now).map (fun h => normalizeForRepeat h.text)) with
  | true => simp [handleModeration, h1, h2, h3, dupFinish]
  | false =>
  cases h4 : decide (12 ≤ countEmojis msg.content) with
  | true => simp [handleModeration, h1, h2, h3, h4, spamFinish]
  | false =>
    exfalso
    have hr := (restStage_shape { st with messageHistory := bufferAfter st msg now } msg now
      modSvc toneSvc).2
    exact absurd (by simpa [handleModeration, h1, h2, h3, h4] using h) (by simp [hr])

/-- The run used by C5's witness: an emoji-flood message for which the tone
classifier would report maximal hostility — the spam short-circuit still
prevents any tone action. -/
def spamToneRun : ModResult :=
  handleModeration freshState ⟨11, List.replicate 12 '✅'⟩ 0 [] cleanMod
    (ToneResponse.ok ⟨true, true, true, "high"⟩) false false

/-- Witness for C5's amended theorem on the emoji-flood run. -/
theorem spam_skips_tone_witness :
    spamToneRun.callout = false ∧ spamToneRun.completed = false ∧
    spamToneRun.escalations.length = 1 :=
  spam_skips_tone freshState ⟨11, List.replicate 12 '✅'⟩ 0 [] cleanMod
    (ToneResponse.ok ⟨true, true, true, "high"⟩) false false (by decide)

/-! ### C6: the duplicate-flood trigger -/

/-- A ≥20-character line used as the duplicated message. -/
def dupLine : String := "duplicate duplicate message here"

/-- A different message from the same user. -/
def otherLine : String := "a completely different message"

/-- Buffer state for the C6 counterexample: user 7's buffered messages are
[other, dup, dup]; with the incoming dup, the user's LAST THREE messages are
identical but the oldest buffered one differs. -/
def mixedBufferState : ModState :=
  ⟨fun _ => Option.none, fun _ => 0, fun _ => Option.none,
   [⟨otherLine.data, 0, 7⟩, ⟨dupLine.data, 0, 7⟩, ⟨dupLine.data, 0, 7⟩]⟩

/-- The C6 counterexample run. -/
def mixedBufferRun : ModResult :=
  handleModeration mixedBufferState ⟨7, dupLine.data⟩ 100000 [] cleanMod
    ToneResponse.malformed false false

/-- C6 counterexample: the user's last 3 messages all normalize to the same
32-character string, yet no strike is recorded and nothing is deleted,
because the code requires ALL of the user's buffered messages (here 4,
including an older different one) to be identical. -/
theorem dup_flood_last3_cex :
    ((((userMsgsOf mixedBufferState ⟨7, dupLine.data⟩ 100000).reverse.take 3).map
        (fun h => normalizeForRepeat h.text)).all
      (fun x => x == normalizeForRepeat dupLine.data)) = true ∧
    3 ≤ (userMsgsOf mixedBufferState ⟨7, dupLine.data⟩ 100000).length ∧
    20 ≤ (normalizeForRepeat dupLine.data).length ∧
    mixedBufferRun.escalations = [] ∧
    mixedBufferRun.deletedIds = [] ∧
    mixedBufferRun.state.strikes 7 = Option.none ∧
    mixedBufferRun.logs.length = 1 := by decide

/-- C6 (amended): when ALL of the user's messages in the channel ring buffer
(at least 3 of them, the incoming one included) normalize to the identical
string of at least 20 characters — and no earlier spam heuristic intercepts
the message — one strike is recorded, every matching duplicate from that user
among the fetched recent channel messages within a 10-minute window is
deleted, and if this is the user's first-ever strike the applied action is
warn. -/
theorem dup_flood_all_buffered (st : ModState) (msg : Msg) (now : Nat) (fetched : List FMsg)
    (modSvc : ModResponse) (toneSvc : ToneResponse)
    (hrate : rateFloodFire (userMsgsOf st msg now) now = false)
    (hcp : hasCopypastaInSingleMessage msg.content = false)
    (hdup : dupFloodFire ((userMsgsOf st msg now).map (fun h => normalizeForRepeat h.text)) = true) :
    (handleModeration st msg now fetched modSvc toneSvc false false).spamShort = true ∧
    (handleModeration st msg now fetched modSvc toneSvc false false).escalations
      = ["Spam (duplicate copypasta)"] ∧
    (handleModeration st msg now fetched modSvc toneSvc false false).deletedIds
      = (duplicateTargets msg.author
          (((userMsgsOf st msg now).map (fun h => normalizeForRepeat h.text)).headD [])
          now (10 * 60 * 1000) fetched).map (fun m => m.id) ∧
    (handleModeration st msg now fetched modSvc toneSvc false false).logs
      = [plainLog (escalate st.strikes now msg.author).action, plainLog Action.delete] ∧
    (st.strikes msg.author = Option.none →
      (escalate st.strikes now msg.author).action = Action.warn) := by
  have key : handleModeration st msg now fetched modSvc toneSvc false false
      = dupFinish { st with messageHistory := bufferAfter st msg now } msg now fetched
          (((userMsgsOf st msg now).map (fun h => normalizeForRepeat h.text)).headD []) := by
    simp [handleModeration, hrate, hcp, hdup]
  rw [key]
  refine ⟨rfl, rfl, rfl, rfl, fun h0 => ?_⟩
  simp [escalate, decayStrikes, h0, escalateAction, STRIKE_LIMITS]

/-- Buffer state for C6's witness: both buffered messages from user 7 equal
the incoming one. -/
def dupBufferState : ModState :=
  ⟨fun _ => Option.none, fun _ => 0, fun _ => Option.none,
   [⟨dupLine.data, 0, 7⟩, ⟨dupLine.data, 0, 7⟩]⟩

/-- Fetched channel messages for C6's witness: one matching duplicate from
user 7 (id 101), one identical message from another user (id 102), and one
different message from user 7 (id 103). -/
def dupFetched : List FMsg :=
  [⟨Option.some 7, dupLine.data, 99000, 101⟩,
   ⟨Option.some 8, dupLine.data, 99000, 102⟩,
   ⟨Option.some 7, otherLine.data, 99000, 103⟩]

/-- Witness for C6's amended theorem: the duplicate flood fires, exactly the
matching duplicate from the same user is deleted, and the first-ever strike
warns. -/
theorem dup_flood_all_buffered_witness :
    (handleModeration dupBufferState ⟨7, dupLine.data⟩ 100000 dupFetched cleanMod
        ToneResponse.malformed false false).escalations = ["Spam (duplicate copypasta)"] ∧
    (handleModeration dupBufferState ⟨7, dupLine.data⟩ 100000 dupFetched cleanMod
        ToneResponse.malformed false false).deletedIds = [101] ∧
    (escalate dupBufferState.strikes 100000 7).action = Action.warn := by
  have h := dup_flood_all_buffered dupBufferState ⟨7, dupLine.data⟩ 100000 dupFetched cleanMod
    ToneResponse.malformed (by decide) (by decide) (by decide)
  refine ⟨h.2.1, ?_, h.2.2.2.2 (by decide)⟩
  rw [h.2.2.1]
  decide

/-! ### C7: the tone-callout cooldown -/

/-- The `medium` toxicity + condescending tone of the spec's Scenario D. -/
def medCondTone : Tone := ⟨false, true, false, "medium"⟩

/-- First Scenario-D message from the never-before-seen user 42. -/
def sarcMsg1 : Msg := ⟨42, "you would not get it anyway".data⟩

/-- Second Scenario-D message, 4 seconds after the first. -/
def sarcMsg2 : Msg := ⟨42, "still beneath my level folks".data⟩

/-- Scenario D, first message at t = 1000000. -/
def calloutRun1 : ModResult :=
  handleModeration freshState sarcMsg1 1000000 [] cleanMod
    (ToneResponse.ok medCondTone) false false

/-- Scenario D, second message 4000 ms later, on the state the first run left. -/
def calloutRun2 : ModResult :=
  handleModeration calloutRun1.state sarcMsg2 1004000 [] cleanMod
    (ToneResponse.ok medCondTone) false false

/-- A state whose user 42 already has 3 tone warnings and a callout 4 seconds
ago, exercising the shortened 3-second cooldown. -/
def warnedState : ModState :=
  ⟨fun _ => Option.none, fun v => if v = 42 then 1000000 else 0,
   fun v => if v = 42 then Option.some ⟨3, 1000000, 0, "repeat behavior"⟩ else Option.none, []⟩

/-- The shortened-cooldown run: 4 seconds after the previous callout, with 3
prior warnings. -/
def calloutRun3 : ModResult :=
  handleModeration warnedState ⟨42, "peasants could never comprehend".data⟩ 1004000 []
    cleanMod (ToneResponse.ok medCondTone) false false

/-- C7: the public tone callout is gated by a per-user cooldown of 5000 ms by
default and 3000 ms once the user has at least 3 prior warnings, and cooldown
suppression does not suppress strike/policy evaluation: in Scenario D the
first medium+condescending message gets a callout and a warn strike (count 1),
the second, 4 s later, gets no callout but still records strike count 2 and a
10-minute timeout; and with ≥3 prior warnings a 4-second gap is beyond the
shortened cooldown, so the callout fires. -/
theorem tone_cooldown_scenario :
    toneCooldown 0 = 5000 ∧ toneCooldown 2 = 5000 ∧
    toneCooldown 3 = 3000 ∧ toneCooldown 10 = 3000 ∧
    calloutRun1.callout = true ∧
    calloutRun1.escalations = ["Hostile tone (medium)"] ∧
    calloutRun1.state.strikes 42 = Option.some ⟨1, 1000000⟩ ∧
    calloutRun1.logs.headD (plainLog Action.nothing) = plainLog Action.warn ∧
    calloutRun2.callout = false ∧
    calloutRun2.escalations = ["Hostile tone (medium)"] ∧
    calloutRun2.state.strikes 42 = Option.some ⟨2, 1004000⟩ ∧
    calloutRun2.logs.headD (plainLog Action.nothing) = plainLog (Action.timeout 600000) ∧
    calloutRun3.callout = true := by decide

end Bot
